import Mathlib

/-!
Shallow embedding of the Statistical Testing & Allocation Engine of the
creative-optimizer repository (src/utils/ab_testing.py and
src/utils/early_signals.py).

Conventions of the embedding:
* Python floats are modelled by `ℚ`; the black-box numeric primitives from
  `scipy.stats` (`norm.cdf`, `norm.ppf`) and `math.sqrt` are passed in as
  function parameters (`cdf`, `ppf`, `sq`), so every theorem states which
  facts about those primitives it uses as explicit hypotheses.
* The database lookups of `ABTest.analyze_test` / `ABTest.multi_armed_bandit`
  are external collaborators; the embedding takes the fetched per-variant
  counters directly, exactly as the dictionaries returned by the queries
  are consumed by the statistical code.
* The dynamically shaped result dictionaries are modelled by inductive
  result types, one constructor per dictionary shape the code can return.
* `random.random()` / `random.choice` draws of the process-global random
  module are modelled by explicitly passed draw values (`randVal`,
  `randIdx`), which is the explicit-state-passing embedding of the global
  generator state the code consumes.
* The code rounds several fields of the returned dictionary for display
  (`round(x, k)`); the model records the unrounded values those fields are
  computed from, since every decision in the code (`significant`, `winner`)
  is made on the unrounded values.
-/

/-- Per-variant counters fetched from the `Creative` row, as consumed by
`ABTest.analyze_test` (ab_testing.py lines 109-123). -/
structure Counts where
  impressions : ℕ
  clicks : ℕ
  conversions : ℕ
  installs : ℕ
deriving DecidableEq

/-- The fields of the full result dictionary built at ab_testing.py lines
168-196 that carry statistical content (identity fields `id`/`name` and the
echoed per-variant sub-dictionaries are omitted; they copy the inputs). -/
structure TestVerdict where
  rateA : ℚ
  rateB : ℚ
  lift : ℚ
  zScore : ℚ
  pValue : ℚ
  significant : Bool
  winner : String
  ciLower : ℚ
  ciUpper : ℚ
  confidence : ℚ
  recommendation : String
deriving DecidableEq

/-- The three dictionary shapes `analyze_test` can return once both
creatives were found: the unknown-metric error (line 125), the
insufficient-data signal (lines 128-134) and the full verdict. -/
inductive AnalyzeResult where
  | unknownMetric (metric : String)
  | insufficientData (samplesA samplesB : ℕ)
  | verdict (v : TestVerdict)
deriving DecidableEq

def AnalyzeResult.isVerdict : AnalyzeResult → Bool
  | .verdict _ => true
  | _ => false

def AnalyzeResult.vRateA : AnalyzeResult → ℚ
  | .verdict v => v.rateA
  | _ => 0

def AnalyzeResult.vRateB : AnalyzeResult → ℚ
  | .verdict v => v.rateB
  | _ => 0

def AnalyzeResult.vZScore : AnalyzeResult → ℚ
  | .verdict v => v.zScore
  | _ => 0

def AnalyzeResult.vPValue : AnalyzeResult → ℚ
  | .verdict v => v.pValue
  | _ => 1

def AnalyzeResult.vSignificant : AnalyzeResult → Bool
  | .verdict v => v.significant
  | _ => false

def AnalyzeResult.vWinner : AnalyzeResult → String
  | .verdict v => v.winner
  | _ => ""

/-- Metric selection of `analyze_test` (ab_testing.py lines 109-125):
maps the metric name to the (numerator, denominator) counter pair of each
variant; an unrecognised metric yields `none` (the error dictionary). -/
def metric_values (a b : Counts) (metric : String) : Option (ℕ × ℕ × ℕ × ℕ) :=
  if metric = ("cvr") then some (a.conversions, a.clicks, b.conversions, b.clicks)
  else if metric = ("install_rate") then some (a.installs, a.clicks, b.installs, b.clicks)
  else if metric = ("ctr") then some (a.clicks, a.impressions, b.clicks, b.impressions)
  else none

/-- Guarded rate `x / total if total > 0 else 0` (ab_testing.py lines 137-138). -/
def rate_of (x total : ℕ) : ℚ :=
  if 0 < total then (x : ℚ) / total else 0

/-- Pooled rate of the two-proportion z-test (ab_testing.py line 141). -/
def pooled_rate (ca ta cb tb : ℕ) : ℚ :=
  ((ca : ℚ) + (cb : ℚ)) / ((ta : ℚ) + (tb : ℚ))

/-- The argument of `math.sqrt` in the pooled standard error
(ab_testing.py line 142). -/
def variance_expr (ca ta cb tb : ℕ) : ℚ :=
  pooled_rate ca ta cb tb * (1 - pooled_rate ca ta cb tb) * (1 / (ta : ℚ) + 1 / (tb : ℚ))

/-- Statistical core of `analyze_test` (ab_testing.py lines 128-196), after
metric selection: volume gate, rates, two-proportion z-test with the
`se == 0` sentinel branch, lift, confidence interval (`_confidence_interval`,
lines 198-219, with `z975 = stats.norm.ppf((1 + 0.95) / 2)`), and verdict.
`cdf` stands for `stats.norm.cdf` and `sq` for `math.sqrt`.  The single
`if se == 0` of the source assigns both `z_score` and `p_value`; it is
rendered as two `if`s on the same condition. -/
def analyze_core (cdf sq : ℚ → ℚ) (z975 : ℚ) (ca ta cb tb : ℕ) : AnalyzeResult :=
  if ta < 100 ∨ tb < 100 then .insufficientData ta tb
  else
    let rate_a := rate_of ca ta
    let rate_b := rate_of cb tb
    let se := sq (variance_expr ca ta cb tb)
    let z_score : ℚ := if se = 0 then 0 else (rate_b - rate_a) / se
    let p_value : ℚ := if se = 0 then 1 else 2 * (1 - cdf |z_score|)
    let lift : ℚ := if 0 < rate_a then (rate_b - rate_a) / rate_a else 0
    let se_a : ℚ := if 0 < ta then sq (rate_a * (1 - rate_a) / (ta : ℚ)) else 0
    let se_b : ℚ := if 0 < tb then sq (rate_b * (1 - rate_b) / (tb : ℚ)) else 0
    let se_diff := sq (se_a ^ 2 + se_b ^ 2)
    let margin := z975 * se_diff
    let ci_lower : ℚ := if 0 < rate_a then ((rate_b - rate_a) - margin) / rate_a else 0
    let ci_upper : ℚ := if 0 < rate_a then ((rate_b - rate_a) + margin) / rate_a else 0
    let significant := decide (p_value < 1 / 20)
    .verdict
      { rateA := rate_a
        rateB := rate_b
        lift := lift
        zScore := z_score
        pValue := p_value
        significant := significant
        winner := if significant then (if rate_a < rate_b then ("B") else ("A")) else ("tie")
        ciLower := ci_lower
        ciUpper := ci_upper
        confidence := if p_value < 1 then 1 - p_value else 0
        recommendation :=
          if significant then
            ("Scale variant " ++ (if rate_a < rate_b then ("B") else ("A")) ++
              " - statistically significant winner")
          else ("No clear winner yet - continue testing or stop test") }

/-- `ABTest.analyze_test` (ab_testing.py lines 71-196) on the fetched
counters of the two creatives. -/
def analyze_test (cdf sq : ℚ → ℚ) (z975 : ℚ) (a b : Counts) (metric : String) :
    AnalyzeResult :=
  match metric_values a b metric with
  | none => .unknownMetric metric
  | some (ca, ta, cb, tb) => analyze_core cdf sq z975 ca ta cb tb

/-- Denominator of the sample-size formula (ab_testing.py line 65). -/
def sample_size_denominator (baseline_cvr minimum_detectable_effect : ℚ) : ℚ :=
  (baseline_cvr * (1 + minimum_detectable_effect) - baseline_cvr) ^ 2

/-- Numerator of the sample-size formula (ab_testing.py lines 54-64);
`ppf` stands for `stats.norm.ppf`. -/
def sample_size_numerator (ppf : ℚ → ℚ) (baseline_cvr minimum_detectable_effect alpha power : ℚ) : ℚ :=
  let z_alpha := ppf (1 - alpha / 2)
  let z_beta := ppf power
  let variant_cvr := baseline_cvr * (1 + minimum_detectable_effect)
  let p_pooled := (baseline_cvr + variant_cvr) / 2
  (z_alpha + z_beta) ^ 2 * 2 * p_pooled * (1 - p_pooled)

/-- The exact value whose ceiling `calculate_sample_size` returns. -/
def sample_size_ratio (ppf : ℚ → ℚ) (baseline_cvr minimum_detectable_effect alpha power : ℚ) : ℚ :=
  sample_size_numerator ppf baseline_cvr minimum_detectable_effect alpha power /
    sample_size_denominator baseline_cvr minimum_detectable_effect

/-- `ABTest.calculate_sample_size` (ab_testing.py lines 29-69).  The function
performs no parameter validation; when the denominator is zero the Python
float division raises an uncaught `ZeroDivisionError`, modelled as `none`.
Otherwise `int(math.ceil(numerator / denominator))` is returned. -/
def calculate_sample_size (ppf : ℚ → ℚ) (baseline_cvr minimum_detectable_effect alpha power : ℚ) :
    Option ℤ :=
  if sample_size_denominator baseline_cvr minimum_detectable_effect = 0 then none
  else some ⌈sample_size_ratio ppf baseline_cvr minimum_detectable_effect alpha power⌉

/-- The two dictionary shapes `EarlySignalsAnalyzer.analyze_24h_performance`
can return: a gate signal (early_signals.py lines 74-79 and 83-88, carrying
only signal / confidence / recommendation / reasoning) and a scored result
(lines 159-174).  The `score` field of the scored shape is the value
`positive_signals - negative_signals` the code reports in its reasoning
string (line 156) and classifies on; `predictedCvr` is the
`predicted_final_cvr` field. -/
inductive EarlyResult where
  | gated (signal : String) (confidence : ℚ) (recommendation : String)
  | scored (signal : String) (confidence : ℚ) (recommendation : String)
      (predictedCvr : ℚ) (score : ℤ)
deriving DecidableEq

def EarlyResult.signal : EarlyResult → String
  | .gated s _ _ => s
  | .scored s _ _ _ _ => s

def EarlyResult.recommendation : EarlyResult → String
  | .gated _ _ r => r
  | .scored _ _ r _ _ => r

def EarlyResult.confidence : EarlyResult → ℚ
  | .gated _ c _ => c
  | .scored _ c _ _ _ => c

/-- Positive-signal accumulation of early_signals.py lines 91-124: CTR at or
above the good threshold contributes 2, bounce rate at or below the good
threshold 1, time on page at or above the good threshold 1, and any early
conversion 1. -/
def positive_signals (ctr bounce_rate avg_time_on_page : ℚ) (conversions : ℕ) : ℕ :=
  (if 3 / 100 ≤ ctr then 2 else 0) +
  (if bounce_rate ≤ 40 / 100 then 1 else 0) +
  (if 5 ≤ avg_time_on_page then 1 else 0) +
  (if 0 < conversions then 1 else 0)

/-- Negative-signal accumulation of early_signals.py lines 91-119; each
`elif` branch fires only when the corresponding good-threshold branch did
not. -/
def negative_signals (ctr bounce_rate avg_time_on_page : ℚ) : ℕ :=
  (if ¬(3 / 100 ≤ ctr) ∧ ctr ≤ 1 / 100 then 2 else 0) +
  (if ¬(bounce_rate ≤ 40 / 100) ∧ 70 / 100 ≤ bounce_rate then 1 else 0) +
  (if ¬(5 ≤ avg_time_on_page) ∧ avg_time_on_page ≤ 2 then 1 else 0)

/-- Classification chain of early_signals.py lines 129-153 on the final
score, producing signal, confidence, recommendation and the CTR-scaled
predicted CVR. -/
def classify_code (score : ℤ) (ctr : ℚ) : EarlyResult :=
  if 3 ≤ score then .scored ("strong_positive") (75 / 100) ("scale") (ctr * (15 / 100)) score
  else if 1 ≤ score then .scored ("positive") (65 / 100) ("continue") (ctr * (12 / 100)) score
  else if -1 ≤ score then .scored ("neutral") (50 / 100) ("continue") (ctr * (8 / 100)) score
  else if -3 ≤ score then .scored ("negative") (70 / 100) ("pause") (ctr * (5 / 100)) score
  else .scored ("strong_negative") (80 / 100) ("kill") (ctr * (3 / 100)) score

/-- Scoring tail of `analyze_24h_performance` (early_signals.py lines
90-174), reached when both gates pass. -/
def score_creative (ctr bounce_rate avg_time_on_page : ℚ) (conversions : ℕ) : EarlyResult :=
  classify_code
    ((positive_signals ctr bounce_rate avg_time_on_page conversions : ℤ) -
      (negative_signals ctr bounce_rate avg_time_on_page : ℤ))
    ctr

/-- `EarlySignalsAnalyzer.analyze_24h_performance` (early_signals.py lines
32-174).  The code derives `age_hours` from `datetime.utcnow() - created_at`
when `created_at` is passed; the age in hours is taken as an optional
parameter, `none` when `created_at` is absent.  The time gate (lines 71-79)
is checked before the volume gate (lines 82-88); both return `wait` with
confidence 0, the time gate under the signal label `"insufficient_data"`
and the volume gate under `"insufficient_volume"`. -/
def analyze_24h_performance (impressions clicks landing_views landing_bounces : ℕ)
    (avg_time_on_page : ℚ) (conversions : ℕ) (age_hours : Option ℚ) : EarlyResult :=
  let ctr : ℚ := if 0 < impressions then (clicks : ℚ) / impressions else 0
  let bounce_rate : ℚ := if 0 < landing_views then (landing_bounces : ℚ) / landing_views else 0
  let rest : EarlyResult :=
    if impressions < 100 ∨ clicks < 10 then .gated ("insufficient_volume") 0 ("wait")
    else score_creative ctr bounce_rate avg_time_on_page conversions
  match age_hours with
  | some age => if age < 6 then .gated ("insufficient_data") 0 ("wait") else rest
  | none => rest

/-- One entry of the `results` leaderboard assembled by
`ABTest.multi_armed_bandit` (ab_testing.py lines 251-258): creative id,
empirical CVR (`creative.cvr / 10000 if creative.cvr else 0`) and sample
count. -/
structure BanditArm where
  creative_id : String
  cvr : ℚ
  samples : ℕ
deriving DecidableEq

/-- The dictionary returned by `multi_armed_bandit` (ab_testing.py lines
284-290). -/
structure AllocationPlan where
  next_creative : String
  allocation : List (String × ℚ)
  reason : String
  epsilon : ℚ
  leaderboard : List BanditArm
deriving DecidableEq

/-- `ABTest.multi_armed_bandit` (ab_testing.py lines 221-290) on the fetched
arms.  `randVal` is the value drawn by `random.random()` and `randIdx`
selects the uniform `random.choice` pick (reduced modulo the leaderboard
length); both draws come from the process-global `random` module in the
source.  The empty-arm error dictionary (line 248) is `none`.  Sorting by
CVR descending (line 261, a stable sort) is `List.mergeSort` with the
reversed comparator. -/
def multi_armed_bandit (arms : List BanditArm) (epsilon randVal : ℚ) (randIdx : ℕ) :
    Option AllocationPlan :=
  match List.mergeSort arms (fun x y => decide (y.cvr ≤ x.cvr)) with
  | [] => none
  | top :: rest =>
    let results := top :: rest
    let n := results.length
    let chosen := if randVal < epsilon then results.getD (randIdx % n) top else top
    let reason : String := if randVal < epsilon then ("explore") else ("exploit_winner")
    let exploit_pct := 1 - epsilon
    let explore_pct_per_variant := epsilon / (n : ℚ)
    let allocation := results.map fun r =>
      (r.creative_id,
        if r.creative_id = chosen.creative_id then exploit_pct + explore_pct_per_variant
        else explore_pct_per_variant)
    some
      { next_creative := chosen.creative_id
        allocation := allocation
        reason := reason
        epsilon := epsilon
        leaderboard := results }

def mabAllocation (r : Option AllocationPlan) : List (String × ℚ) :=
  match r with
  | some p => p.allocation
  | none => []

def mabNext (r : Option AllocationPlan) : String :=
  match r with
  | some p => p.next_creative
  | none => ""

/-- Rational stand-in for `stats.norm.ppf` at the two probabilities the
sample-size examples use: `ppf(0.975) = 1.96` (exact to the code's use) and
`ppf(0.8) = 0.842`. -/
def ppf_approx : ℚ → ℚ := fun p => if p = 39 / 40 then 49 / 25 else 421 / 500

/-- C3: for every pair of variant counts and valid metric, if either
variant's denominator for that metric is below 100, `analyze_test` returns
the insufficient-data signal carrying both sample sizes; the result shape
carries no statistics, so none are computed, regardless of the observed
rates. -/
theorem C3_volume_gate (cdf sq : ℚ → ℚ) (z975 : ℚ) (a b : Counts) (metric : String)
    (ca ta cb tb : ℕ) (hsel : metric_values a b metric = some (ca, ta, cb, tb))
    (hlow : ta < 100 ∨ tb < 100) :
    analyze_test cdf sq z975 a b metric = .insufficientData ta tb := by
  simp only [analyze_test, hsel]
  unfold analyze_core
  rw [if_pos hlow]

/-- Concrete instance of the volume gate: variant A has only 50 clicks on
metric `cvr`, so the analyzer reports both sample sizes and nothing else. -/
theorem C3_volume_gate_witness :
    analyze_test (fun _ => (1 : ℚ) / 2) (fun _ => 0) 0 ⟨0, 50, 10, 0⟩ ⟨0, 200, 20, 0⟩ ("cvr") =
      .insufficientData 50 200 :=
  C3_volume_gate _ _ _ _ _ _ _ _ _ _ rfl (Or.inl (by norm_num))

/-- C5 (evidence for the code bug): `calculate_sample_size` performs no
parameter validation.  With `baseline_rate = 1.5` (outside the unit
interval) it silently computes the meaningless negative "sample size" -187
instead of failing with a domain error, and with
`minimum_detectable_effect = 0` it fails only through the unchecked float
division by zero (`none` in the model), not through a checked domain
error. -/
theorem C5_no_domain_validation :
    calculate_sample_size ppf_approx (3 / 2) (1 / 5) (1 / 20) (4 / 5) = some (-187) ∧
    calculate_sample_size ppf_approx (1 / 20) 0 (1 / 20) (4 / 5) = none := by
  constructor
  · rw [calculate_sample_size, if_neg (by norm_num [sample_size_denominator])]
    congr 1
    rw [Int.ceil_eq_iff]
    constructor <;>
      norm_num [sample_size_ratio, sample_size_numerator, sample_size_denominator, ppf_approx]
  · rw [calculate_sample_size, if_pos (by norm_num [sample_size_denominator])]

/-- C6 (amended): whenever the age is known and below 6 hours,
`analyze_24h_performance` short-circuits before the volume gate and before
any scoring and returns the time-gate signal with recommendation `wait` and
confidence 0, regardless of all other metrics; the code labels this signal
`"insufficient_data"` (not `"insufficient_time"` as the spec names it). -/
theorem C6_time_gate (impressions clicks landing_views landing_bounces : ℕ)
    (avg_time_on_page : ℚ) (conversions : ℕ) (age : ℚ) (hage : age < 6) :
    analyze_24h_performance impressions clicks landing_views landing_bounces
        avg_time_on_page conversions (some age) =
      .gated ("insufficient_data") 0 ("wait") := by
  simp [analyze_24h_performance, hage]

/-- Concrete instance of the time gate at age 3 hours with otherwise strong
metrics. -/
theorem C6_time_gate_witness :
    analyze_24h_performance 500 20 18 6 (13 / 2) 2 (some 3) =
      .gated ("insufficient_data") 0 ("wait") :=
  C6_time_gate 500 20 18 6 (13 / 2) 2 3 (by norm_num)

/-- C6 counterexample: at age 3 hours (below the 6-hour gate) the signal
label the code returns is `"insufficient_data"`, not the claimed
`"insufficient_time"`. -/
theorem C6_signal_label_counterexample :
    (analyze_24h_performance 500 20 18 6 (13 / 2) 2 (some 3)).signal =
        ("insufficient_data") ∧
    (analyze_24h_performance 500 20 18 6 (13 / 2) 2 (some 3)).signal ≠
        ("insufficient_time") := by
  refine ⟨by norm_num [analyze_24h_performance, EarlyResult.signal], ?_⟩
  norm_num [analyze_24h_performance, EarlyResult.signal]
  decide

/-- C7 (evidence for the code bug): the allocation outcome depends on the
draws the code takes from the process-global `random` module
(`random.random()` at ab_testing.py line 264, `random.choice` at line 266),
which the caller can neither inject nor seed: with the same variant list
and the same epsilon, two different global-generator states produce
different plans. -/
theorem C7_depends_on_global_random_draws :
    multi_armed_bandit [⟨("a"), 5 / 100, 10⟩, ⟨("b"), 3 / 100, 5⟩] (1 / 10) (1 / 2) 0 ≠
      multi_armed_bandit [⟨("a"), 5 / 100, 10⟩, ⟨("b"), 3 / 100, 5⟩] (1 / 10) (5 / 100) 1 := by
  intro heq
  have hnext := congrArg mabNext heq
  norm_num [multi_armed_bandit, List.mergeSort, List.getD, mabNext] at hnext
  exact absurd hnext (by decide)

/-- C9 counterexample: at baseline 1/10 the mde values 1/5 and the strictly
smaller 199999/1000000 produce the same required sample size 3844, so
decreasing the minimum detectable effect does not strictly increase the
returned integer. -/
theorem C9_strictness_counterexample :
    (0 : ℚ) < 199999 / 1000000 ∧ (199999 : ℚ) / 1000000 < 1 / 5 ∧
    calculate_sample_size ppf_approx (1 / 10) (1 / 5) (1 / 20) (4 / 5) = some 3844 ∧
    calculate_sample_size ppf_approx (1 / 10) (199999 / 1000000) (1 / 20) (4 / 5) =
      some 3844 := by
  refine ⟨by norm_num, by norm_num, ?_, ?_⟩
  · rw [calculate_sample_size, if_neg (by norm_num [sample_size_denominator])]
    congr 1
    rw [Int.ceil_eq_iff]
    constructor <;>
      norm_num [sample_size_ratio, sample_size_numerator, sample_size_denominator, ppf_approx]
  · rw [calculate_sample_size, if_neg (by norm_num [sample_size_denominator])]
    congr 1
    rw [Int.ceil_eq_iff]
    constructor <;>
      norm_num [sample_size_ratio, sample_size_numerator, sample_size_denominator, ppf_approx]

/-- CTR contribution of the spec's threshold table: at least 0.03 gives +2,
at most 0.01 gives -2, otherwise 0. -/
def ctr_points (ctr : ℚ) : ℤ :=
  if 3 / 100 ≤ ctr then 2 else if ctr ≤ 1 / 100 then -2 else 0

/-- Bounce-rate contribution of the spec's threshold table: at most 0.40
gives +1, at least 0.70 gives -1, otherwise 0. -/
def bounce_points (b : ℚ) : ℤ :=
  if b ≤ 40 / 100 then 1 else if 70 / 100 ≤ b then -1 else 0

/-- Time-on-page contribution of the spec's threshold table: at least 5
seconds gives +1, at most 2 seconds gives -1, otherwise 0. -/
def time_points (t : ℚ) : ℤ :=
  if 5 ≤ t then 1 else if t ≤ 2 then -1 else 0

/-- Conversion bonus of the spec's threshold table: any early conversion
gives +1, with no penalty for zero. -/
def conversion_bonus (c : ℕ) : ℤ :=
  if 0 < c then 1 else 0

/-- Signed early-signals score as the sum of the four independent
contributions of the spec's table. -/
def early_score_spec (ctr b t : ℚ) (c : ℕ) : ℤ :=
  ctr_points ctr + bounce_points b + time_points t + conversion_bonus c

/-- Classification table exactly as the spec tabulates it, with two-sided
score ranges. -/
def classify_spec (score : ℤ) (ctr : ℚ) : EarlyResult :=
  if 3 ≤ score then .scored ("strong_positive") (75 / 100) ("scale") (ctr * (15 / 100)) score
  else if 1 ≤ score ∧ score ≤ 2 then
    .scored ("positive") (65 / 100) ("continue") (ctr * (12 / 100)) score
  else if -1 ≤ score ∧ score ≤ 0 then
    .scored ("neutral") (50 / 100) ("continue") (ctr * (8 / 100)) score
  else if -3 ≤ score ∧ score ≤ -2 then
    .scored ("negative") (70 / 100) ("pause") (ctr * (5 / 100)) score
  else .scored ("strong_negative") (80 / 100) ("kill") (ctr * (3 / 100)) score

lemma ctr_split (ctr : ℚ) :
    (if 3 / 100 ≤ ctr then (2 : ℤ) else 0) -
      (if ¬(3 / 100 ≤ ctr) ∧ ctr ≤ 1 / 100 then (2 : ℤ) else 0) = ctr_points ctr := by
  unfold ctr_points
  split_ifs <;> tauto

lemma bounce_split (b : ℚ) :
    (if b ≤ 40 / 100 then (1 : ℤ) else 0) -
      (if ¬(b ≤ 40 / 100) ∧ 70 / 100 ≤ b then (1 : ℤ) else 0) = bounce_points b := by
  unfold bounce_points
  split_ifs <;> tauto

lemma time_split (t : ℚ) :
    (if 5 ≤ t then (1 : ℤ) else 0) -
      (if ¬(5 ≤ t) ∧ t ≤ 2 then (1 : ℤ) else 0) = time_points t := by
  unfold time_points
  split_ifs <;> tauto

lemma score_eq_spec (ctr br t : ℚ) (c : ℕ) :
    ((positive_signals ctr br t c : ℕ) : ℤ) - ((negative_signals ctr br t : ℕ) : ℤ) =
      early_score_spec ctr br t c := by
  unfold positive_signals negative_signals early_score_spec
  have h1 := ctr_split ctr
  have h2 := bounce_split br
  have h3 := time_split t
  have h4 : (if 0 < c then (1 : ℤ) else 0) = conversion_bonus c := rfl
  push_cast
  linarith [h1, h2, h3, h4.ge, h4.le]

lemma classify_code_eq_spec (s : ℤ) (ctr : ℚ) : classify_code s ctr = classify_spec s ctr := by
  unfold classify_code classify_spec
  split_ifs <;> first | rfl | (exfalso; omega)

/-- C8: for every input passing both gates, the scorer accumulates the
signed score exactly as the four independent threshold checks of the spec
state (CTR +2 / -2, bounce +1 / -1, time on page +1 / -1, a +1 bonus for
any conversion) and classifies it by the spec's score table with the fixed
confidences and CTR-scaled predicted CVR; at the worked example
(impressions 500, clicks 20, landing views 18, bounces 6, 6.5 seconds,
2 conversions) the score is 5 and the result is `strong_positive` /
`scale` / confidence 0.75 / predicted CVR = CTR * 0.15. -/
theorem C8_scoring (impressions clicks landing_views landing_bounces : ℕ)
    (avg_time_on_page : ℚ) (conversions : ℕ) (age_hours : Option ℚ)
    (hage : ∀ x : ℚ, age_hours = some x → 6 ≤ x)
    (himp : 100 ≤ impressions) (hclk : 10 ≤ clicks) :
    analyze_24h_performance impressions clicks landing_views landing_bounces
        avg_time_on_page conversions age_hours =
      classify_spec
        (early_score_spec ((clicks : ℚ) / (impressions : ℚ))
          (if 0 < landing_views then (landing_bounces : ℚ) / (landing_views : ℚ) else 0)
          avg_time_on_page conversions)
        ((clicks : ℚ) / (impressions : ℚ)) ∧
    analyze_24h_performance 500 20 18 6 (13 / 2) 2 none =
      .scored ("strong_positive") (75 / 100) ("scale") ((1 / 25) * (15 / 100)) 5 := by
  constructor
  · have hga : ¬(impressions < 100 ∨ clicks < 10) := by omega
    have him : (0 : ℕ) < impressions := by omega
    cases age_hours with
    | none =>
        simp only [analyze_24h_performance, if_neg hga, if_pos him, score_creative,
          classify_code_eq_spec, score_eq_spec]
    | some x =>
        have h6 : ¬(x < 6) := not_lt.mpr (hage x rfl)
        simp only [analyze_24h_performance, if_neg hga, if_pos him, if_neg h6, score_creative,
          classify_code_eq_spec, score_eq_spec]
  · norm_num [analyze_24h_performance, score_creative, positive_signals, negative_signals,
      classify_code]

/-- Worked C8 example, obtained from the refinement theorem with the gates
discharged. -/
theorem C8_scoring_witness :
    analyze_24h_performance 500 20 18 6 (13 / 2) 2 none =
      .scored ("strong_positive") (75 / 100) ("scale") ((1 / 25) * (15 / 100)) 5 :=
  (C8_scoring 500 20 18 6 (13 / 2) 2 none (fun x h => by cases h) (by norm_num)
    (by norm_num)).2

/-- C4: for every pair of counts passing the volume gate whose pooled rate
is degenerate (0 or 1), the argument of the standard-error square root is
0, so with `math.sqrt 0 = 0` the analyzer takes the `se == 0` branch and
substitutes the sentinels `z_score = 0`, `p_value = 1.0` instead of
dividing; the division producing `z_score` is only executed in the
`se ≠ 0` branch of the model, and the call still returns a well-formed
(non-significant, `tie`) verdict. -/
theorem C4_degenerate_se (cdf sq : ℚ → ℚ) (z975 : ℚ) (a b : Counts) (metric : String)
    (ca ta cb tb : ℕ) (hsel : metric_values a b metric = some (ca, ta, cb, tb))
    (ha : 100 ≤ ta) (hb : 100 ≤ tb)
    (hp : pooled_rate ca ta cb tb = 0 ∨ pooled_rate ca ta cb tb = 1)
    (hsq0 : sq 0 = 0) :
    (analyze_test cdf sq z975 a b metric).isVerdict = true ∧
    (analyze_test cdf sq z975 a b metric).vZScore = 0 ∧
    (analyze_test cdf sq z975 a b metric).vPValue = 1 ∧
    (analyze_test cdf sq z975 a b metric).vSignificant = false ∧
    (analyze_test cdf sq z975 a b metric).vWinner = ("tie") := by
  have hV : variance_expr ca ta cb tb = 0 := by
    rcases hp with h | h <;> simp [variance_expr, h]
  have hga : ¬(ta < 100 ∨ tb < 100) := by omega
  simp only [analyze_test, hsel]
  unfold analyze_core
  rw [if_neg hga]
  simp only [hV, hsq0]
  norm_num [AnalyzeResult.isVerdict, AnalyzeResult.vZScore, AnalyzeResult.vPValue,
    AnalyzeResult.vSignificant, AnalyzeResult.vWinner]

/-- Concrete degenerate instance: both variants have 100 clicks and 0
conversions on `cvr`, so the pooled rate is 0 and the sentinels are
returned. -/
theorem C4_degenerate_se_witness :
    (analyze_test (fun _ => (1 : ℚ) / 2) (fun _ => 0) 0 ⟨0, 100, 0, 0⟩ ⟨0, 100, 0, 0⟩
        ("cvr")).isVerdict = true ∧
    (analyze_test (fun _ => (1 : ℚ) / 2) (fun _ => 0) 0 ⟨0, 100, 0, 0⟩ ⟨0, 100, 0, 0⟩
        ("cvr")).vZScore = 0 ∧
    (analyze_test (fun _ => (1 : ℚ) / 2) (fun _ => 0) 0 ⟨0, 100, 0, 0⟩ ⟨0, 100, 0, 0⟩
        ("cvr")).vPValue = 1 ∧
    (analyze_test (fun _ => (1 : ℚ) / 2) (fun _ => 0) 0 ⟨0, 100, 0, 0⟩ ⟨0, 100, 0, 0⟩
        ("cvr")).vSignificant = false ∧
    (analyze_test (fun _ => (1 : ℚ) / 2) (fun _ => 0) 0 ⟨0, 100, 0, 0⟩ ⟨0, 100, 0, 0⟩
        ("cvr")).vWinner = ("tie") :=
  C4_degenerate_se _ _ _ _ _ _ _ _ _ _ rfl (by norm_num) (by norm_num)
    (Or.inl (by norm_num [pooled_rate])) rfl

lemma weight_sum_formula (l : List BanditArm) (cid : String) (w v : ℚ) :
    ((l.map fun r =>
        (r.creative_id, if r.creative_id = cid then w else v)).map fun pr => pr.2).sum =
      v * l.length + (w - v) * (l.countP fun r => decide (r.creative_id = cid)) := by
  induction l with
  | nil => simp
  | cons x xs ih =>
    rw [List.map_cons, List.map_cons, List.sum_cons, ih, List.countP_cons, List.length_cons]
    by_cases h : x.creative_id = cid <;> simp [h] <;> ring

lemma countP_id_eq_one (l : List BanditArm) (x : BanditArm) (hx : x ∈ l)
    (hnd : (l.map fun r => r.creative_id).Nodup) :
    (l.countP fun r => decide (r.creative_id = x.creative_id)) = 1 := by
  induction l with
  | nil => cases hx
  | cons y ys ih =>
    rw [List.map_cons, List.nodup_cons] at hnd
    rcases List.mem_cons.mp hx with rfl | hmem
    · have h0 : ys.countP (fun r => decide (r.creative_id = x.creative_id)) = 0 := by
        rw [List.countP_eq_zero]
        intro r hr
        simp only [decide_eq_true_eq]
        intro hc
        exact hnd.1 (hc ▸ List.mem_map_of_mem (fun r => r.creative_id) hr)
      rw [List.countP_cons, h0]
      simp
    · have hy : ¬(y.creative_id = x.creative_id) := by
        intro hc
        exact hnd.1 (hc ▸ List.mem_map_of_mem (fun r => r.creative_id) hmem)
      rw [List.countP_cons, ih hmem hnd.2]
      simp [hy]

lemma getD_mem_of_mem (l : List BanditArm) (i : ℕ) (d : BanditArm) (hd : d ∈ l) :
    l.getD i d ∈ l := by
  rcases Nat.lt_or_ge i l.length with h | h
  · rw [List.getD_eq_getElem?_getD, List.getElem?_eq_getElem h, Option.getD_some]
    exact List.getElem_mem h
  · rw [List.getD_eq_getElem?_getD, List.getElem?_eq_none h, Option.getD_none]
    exact hd

lemma multi_armed_bandit_eval (arms : List BanditArm) (epsilon randVal : ℚ) (randIdx : ℕ)
    (top : BanditArm) (rest : List BanditArm)
    (hs : List.mergeSort arms (fun x y => decide (y.cvr ≤ x.cvr)) = top :: rest) :
    multi_armed_bandit arms epsilon randVal randIdx =
      some { next_creative := (if randVal < epsilon then
                (top :: rest).getD (randIdx % (top :: rest).length) top
              else top).creative_id
             allocation := (top :: rest).map fun r =>
               (r.creative_id,
                 if r.creative_id = (if randVal < epsilon then
                     (top :: rest).getD (randIdx % (top :: rest).length) top
                   else top).creative_id then
                   (1 - epsilon) + epsilon / (((top :: rest).length : ℕ) : ℚ)
                 else epsilon / (((top :: rest).length : ℕ) : ℚ))
             reason := if randVal < epsilon then ("explore") else ("exploit_winner")
             epsilon := epsilon
             leaderboard := top :: rest } := by
  unfold multi_armed_bandit
  rw [hs]

/-- C1: for every non-empty variant list with pairwise distinct creative
ids and every epsilon in [0,1], the bandit returns a plan that assigns the
chosen variant weight `(1 - epsilon) + epsilon/n` and every other variant
weight `epsilon/n`, so the weights sum exactly to 1; for a single-variant
input the chosen variant is that variant and its weight is exactly 1
regardless of epsilon. -/
theorem C1_allocation (arms : List BanditArm) (epsilon randVal : ℚ) (randIdx : ℕ)
    (hne : arms ≠ []) (hnd : (arms.map fun r => r.creative_id).Nodup)
    (heps0 : 0 ≤ epsilon) (heps1 : epsilon ≤ 1) :
    (multi_armed_bandit arms epsilon randVal randIdx).isSome = true ∧
    ((mabAllocation (multi_armed_bandit arms epsilon randVal randIdx)).map
        fun pr => pr.2).sum = 1 ∧
    (∀ pr ∈ mabAllocation (multi_armed_bandit arms epsilon randVal randIdx),
        pr.1 = mabNext (multi_armed_bandit arms epsilon randVal randIdx) →
          pr.2 = (1 - epsilon) + epsilon / (arms.length : ℚ)) ∧
    (∀ pr ∈ mabAllocation (multi_armed_bandit arms epsilon randVal randIdx),
        pr.1 ≠ mabNext (multi_armed_bandit arms epsilon randVal randIdx) →
          pr.2 = epsilon / (arms.length : ℚ)) ∧
    (∀ w : BanditArm, arms = [w] →
        mabNext (multi_armed_bandit arms epsilon randVal randIdx) = w.creative_id ∧
        mabAllocation (multi_armed_bandit arms epsilon randVal randIdx) =
          [(w.creative_id, 1)]) := by
  have hperm : (List.mergeSort arms fun x y => decide (y.cvr ≤ x.cvr)).Perm arms :=
    List.mergeSort_perm arms _
  cases hs : List.mergeSort arms fun x y => decide (y.cvr ≤ x.cvr) with
  | nil =>
      rw [hs] at hperm
      exact absurd hperm.symm.eq_nil hne
  | cons top rest =>
      rw [hs] at hperm
      have heval := multi_armed_bandit_eval arms epsilon randVal randIdx top rest hs
      rw [heval]
      simp only [mabAllocation, mabNext, Option.isSome_some]
      set chosen := (if randVal < epsilon then
          (top :: rest).getD (randIdx % (top :: rest).length) top
        else top) with hch
      have hchmem : chosen ∈ top :: rest := by
        rw [hch]
        split
        · exact getD_mem_of_mem _ _ _ (List.mem_cons_self top rest)
        · exact List.mem_cons_self top rest
      have hndres : ((top :: rest).map fun r => r.creative_id).Nodup :=
        ((hperm.map fun r => r.creative_id).nodup_iff).mpr hnd
      have hcount := countP_id_eq_one (top :: rest) chosen hchmem hndres
      have hlen : (top :: rest).length = arms.length := hperm.length_eq
      have hn0 : (((top :: rest).length : ℕ) : ℚ) ≠ 0 := by
        have h1 : (0 : ℚ) ≤ (rest.length : ℚ) := Nat.cast_nonneg _
        simp only [List.length_cons]
        push_cast
        intro hcon
        linarith
      refine ⟨trivial, ?_, ?_, ?_, ?_⟩
      · rw [weight_sum_formula, hcount]
        field_simp
      · intro pr hpr hpr1
        obtain ⟨r, hr, hpreq⟩ := List.mem_map.mp hpr
        subst hpreq
        simp at hpr1
        rw [← hlen]
        simp [hpr1]
      · intro pr hpr hpr1
        obtain ⟨r, hr, hpreq⟩ := List.mem_map.mp hpr
        subst hpreq
        simp at hpr1
        rw [← hlen]
        simp [hpr1]
      · intro w harm
        subst harm
        have hsing : top :: rest = [w] := List.perm_singleton.mp hperm
        injection hsing with h1 h2
        subst h2
        subst h1
        have hchw : chosen = top := by
          rw [hch]
          split
          · simp [Nat.mod_one]
          · rfl
        rw [hchw]
        refine ⟨rfl, ?_⟩
        simp

/-- Concrete allocation instance (the spec's two-variant example): rates
0.05 and 0.03 with epsilon 0.1 give weights that sum to 1. -/
theorem C1_allocation_witness :
    ((mabAllocation (multi_armed_bandit [⟨("a"), 5 / 100, 10⟩, ⟨("b"), 3 / 100, 5⟩]
        (1 / 10) (1 / 2) 0)).map fun pr => pr.2).sum = 1 :=
  (C1_allocation [⟨("a"), 5 / 100, 10⟩, ⟨("b"), 3 / 100, 5⟩] (1 / 10) (1 / 2) 0
    (by decide) (by decide) (by norm_num) (by norm_num)).2.1

lemma analyze_core_significant_winner (cdf sq : ℚ → ℚ) (z975 : ℚ) (ca ta cb tb : ℕ)
    (hcdf0 : cdf 0 ≤ 39 / 40)
    (hsig : (analyze_core cdf sq z975 ca ta cb tb).vSignificant = true) :
    (analyze_core cdf sq z975 ca ta cb tb).vRateA ≠
      (analyze_core cdf sq z975 ca ta cb tb).vRateB ∧
    ((analyze_core cdf sq z975 ca ta cb tb).vWinner = ("B") ∧
        (analyze_core cdf sq z975 ca ta cb tb).vRateA <
          (analyze_core cdf sq z975 ca ta cb tb).vRateB ∨
      (analyze_core cdf sq z975 ca ta cb tb).vWinner = ("A") ∧
        (analyze_core cdf sq z975 ca ta cb tb).vRateB <
          (analyze_core cdf sq z975 ca ta cb tb).vRateA) := by
  by_cases hg : ta < 100 ∨ tb < 100
  · exfalso
    unfold analyze_core at hsig
    rw [if_pos hg] at hsig
    simp [AnalyzeResult.vSignificant] at hsig
  · unfold analyze_core at hsig ⊢
    rw [if_neg hg] at hsig ⊢
    simp only [AnalyzeResult.vSignificant, AnalyzeResult.vRateA, AnalyzeResult.vRateB,
      AnalyzeResult.vWinner] at hsig ⊢
    rw [if_pos hsig]
    rw [decide_eq_true_iff] at hsig
    by_cases hse0 : sq (variance_expr ca ta cb tb) = 0
    · rw [if_pos hse0] at hsig
      norm_num at hsig
    · rw [if_neg hse0, if_neg hse0] at hsig
      have hab : rate_of ca ta ≠ rate_of cb tb := by
        intro he
        rw [← he, sub_self, zero_div, abs_zero] at hsig
        linarith
      rcases lt_or_gt_of_ne hab with hlt | hgt
      · exact ⟨hab, Or.inl ⟨by rw [if_pos hlt], hlt⟩⟩
      · exact ⟨hab, Or.inr ⟨by rw [if_neg (not_lt.mpr (le_of_lt hgt))], hgt⟩⟩

/-- C10: whenever `analyze_test` returns a verdict with `significant = true`
the two computed rates are necessarily unequal and the declared winner's
rate is strictly greater than the other variant's: equal rates force
`z_score = 0` and hence `p_value = 2 * (1 - cdf 0) ≥ 0.05`, which never
satisfies the strict `p < 0.05` test.  The only fact used about the normal
CDF is `cdf 0 ≤ 0.975`. -/
theorem C10_winner_rate (cdf sq : ℚ → ℚ) (z975 : ℚ) (a b : Counts) (metric : String)
    (hcdf0 : cdf 0 ≤ 39 / 40)
    (hsig : (analyze_test cdf sq z975 a b metric).vSignificant = true) :
    (analyze_test cdf sq z975 a b metric).vRateA ≠
      (analyze_test cdf sq z975 a b metric).vRateB ∧
    ((analyze_test cdf sq z975 a b metric).vWinner = ("B") ∧
        (analyze_test cdf sq z975 a b metric).vRateA <
          (analyze_test cdf sq z975 a b metric).vRateB ∨
      (analyze_test cdf sq z975 a b metric).vWinner = ("A") ∧
        (analyze_test cdf sq z975 a b metric).vRateB <
          (analyze_test cdf sq z975 a b metric).vRateA) := by
  cases hm : metric_values a b metric with
  | none =>
      simp only [analyze_test, hm, AnalyzeResult.vSignificant] at hsig
      exact Bool.noConfusion hsig
  | some quad =>
      obtain ⟨ca, ta, cb, tb⟩ := quad
      simp only [analyze_test, hm] at hsig ⊢
      exact analyze_core_significant_winner cdf sq z975 ca ta cb tb hcdf0 hsig

/-- Concrete significant instance: rates 0.10 vs 0.30, a CDF stand-in with
`cdf 0 = 0.5` and `cdf 2 = 0.99`, sqrt stand-in 0.1, so `p = 0.02 < 0.05`
and the winner "B" indeed has the strictly larger rate. -/
theorem C10_winner_rate_witness :
    (analyze_test (fun x => if x < 2 then (1 : ℚ) / 2 else 99 / 100) (fun _ => 1 / 10) 0
        ⟨0, 100, 10, 0⟩ ⟨0, 100, 30, 0⟩ ("cvr")).vRateA ≠
      (analyze_test (fun x => if x < 2 then (1 : ℚ) / 2 else 99 / 100) (fun _ => 1 / 10) 0
        ⟨0, 100, 10, 0⟩ ⟨0, 100, 30, 0⟩ ("cvr")).vRateB ∧
    ((analyze_test (fun x => if x < 2 then (1 : ℚ) / 2 else 99 / 100) (fun _ => 1 / 10) 0
        ⟨0, 100, 10, 0⟩ ⟨0, 100, 30, 0⟩ ("cvr")).vWinner = ("B") ∧
        (analyze_test (fun x => if x < 2 then (1 : ℚ) / 2 else 99 / 100) (fun _ => 1 / 10) 0
          ⟨0, 100, 10, 0⟩ ⟨0, 100, 30, 0⟩ ("cvr")).vRateA <
          (analyze_test (fun x => if x < 2 then (1 : ℚ) / 2 else 99 / 100) (fun _ => 1 / 10) 0
            ⟨0, 100, 10, 0⟩ ⟨0, 100, 30, 0⟩ ("cvr")).vRateB ∨
      (analyze_test (fun x => if x < 2 then (1 : ℚ) / 2 else 99 / 100) (fun _ => 1 / 10) 0
        ⟨0, 100, 10, 0⟩ ⟨0, 100, 30, 0⟩ ("cvr")).vWinner = ("A") ∧
        (analyze_test (fun x => if x < 2 then (1 : ℚ) / 2 else 99 / 100) (fun _ => 1 / 10) 0
          ⟨0, 100, 10, 0⟩ ⟨0, 100, 30, 0⟩ ("cvr")).vRateB <
          (analyze_test (fun x => if x < 2 then (1 : ℚ) / 2 else 99 / 100) (fun _ => 1 / 10) 0
            ⟨0, 100, 10, 0⟩ ⟨0, 100, 30, 0⟩ ("cvr")).vRateA) :=
  C10_winner_rate (fun x => if x < 2 then (1 : ℚ) / 2 else 99 / 100) (fun _ => 1 / 10) 0
    ⟨0, 100, 10, 0⟩ ⟨0, 100, 30, 0⟩ ("cvr") (by norm_num)
    (by norm_num [analyze_test, metric_values, analyze_core, rate_of, pooled_rate,
      variance_expr, AnalyzeResult.vSignificant])

/-- C9 (amended): with baseline, alpha and power held fixed, decreasing the
minimum detectable effect strictly increases the exact pre-ceiling ratio
`numerator / denominator`, and therefore never decreases (weakly increases)
the integer `calculate_sample_size` returns; strict increase of the integer
fails for nearby mde values (see the counterexample).  The hypotheses
confine the call to the calculator's intended domain: baseline in (0,1),
positive mde values, variant rate at most 1 at the larger mde, and a
nonzero z-score sum. -/
theorem C9_monotone_sample_size (ppf : ℚ → ℚ) (b m1 m2 alpha power : ℚ)
    (hb0 : 0 < b) (hb1 : b < 1) (hm2 : 0 < m2) (hm12 : m2 < m1)
    (hvr : b * (1 + m1) ≤ 1)
    (hK : ppf (1 - alpha / 2) + ppf power ≠ 0)
    (s1 s2 : ℤ)
    (h1 : calculate_sample_size ppf b m1 alpha power = some s1)
    (h2 : calculate_sample_size ppf b m2 alpha power = some s2) :
    s1 ≤ s2 ∧
    sample_size_ratio ppf b m1 alpha power < sample_size_ratio ppf b m2 alpha power := by
  have hm1 : 0 < m1 := lt_trans hm2 hm12
  have hd1 : sample_size_denominator b m1 = (b * m1) ^ 2 := by
    unfold sample_size_denominator
    ring
  have hd2 : sample_size_denominator b m2 = (b * m2) ^ 2 := by
    unfold sample_size_denominator
    ring
  have hd1pos : 0 < sample_size_denominator b m1 := by
    rw [hd1]
    exact pow_pos (mul_pos hb0 hm1) 2
  have hd2pos : 0 < sample_size_denominator b m2 := by
    rw [hd2]
    exact pow_pos (mul_pos hb0 hm2) 2
  have hK2 : 0 < (ppf (1 - alpha / 2) + ppf power) ^ 2 := by
    rcases hK.lt_or_lt with h | h
    · nlinarith
    · nlinarith
  have hbu : b * (2 + m1) < 2 := by nlinarith
  have hW : 0 < (2 + m1) * (2 + m2) - (2 + m1) - (2 + m2) := by
    nlinarith [mul_pos hm1 hm2]
  have hm1sq : 0 < m1 ^ 2 := pow_pos hm1 2
  have hG : 0 < 2 * ((2 + m1) * (2 + m2) - 4) -
      4 * b * ((2 + m1) * (2 + m2) - (2 + m1) - (2 + m2)) := by
    have hfac : (2 * ((2 + m1) * (2 + m2) - 4) -
        4 * b * ((2 + m1) * (2 + m2) - (2 + m1) - (2 + m2))) * (2 + m1) =
        2 * (2 + m2) * m1 ^ 2 +
          (2 - b * (2 + m1)) * (4 * ((2 + m1) * (2 + m2) - (2 + m1) - (2 + m2))) := by
      ring
    have ht1 : 0 < 2 * (2 + m2) * m1 ^ 2 := by nlinarith
    have ht2 : 0 ≤ (2 - b * (2 + m1)) *
        (4 * ((2 + m1) * (2 + m2) - (2 + m1) - (2 + m2))) :=
      mul_nonneg (by linarith) (by linarith)
    have hGu : 0 < (2 * ((2 + m1) * (2 + m2) - 4) -
        4 * b * ((2 + m1) * (2 + m2) - (2 + m1) - (2 + m2))) * (2 + m1) := by
      rw [hfac]
      linarith
    by_contra hcon
    push_neg at hcon
    nlinarith
  have hT : 0 < ((b + b * (1 + m2)) / 2) * (1 - (b + b * (1 + m2)) / 2) * m1 ^ 2 -
      ((b + b * (1 + m1)) / 2) * (1 - (b + b * (1 + m1)) / 2) * m2 ^ 2 := by
    have hfac2 : 4 * (((b + b * (1 + m2)) / 2) * (1 - (b + b * (1 + m2)) / 2) * m1 ^ 2 -
        ((b + b * (1 + m1)) / 2) * (1 - (b + b * (1 + m1)) / 2) * m2 ^ 2) =
        b * (m1 - m2) * (2 * ((2 + m1) * (2 + m2) - 4) -
          4 * b * ((2 + m1) * (2 + m2) - (2 + m1) - (2 + m2))) := by
      ring
    have hX : 0 < b * (m1 - m2) * (2 * ((2 + m1) * (2 + m2) - 4) -
        4 * b * ((2 + m1) * (2 + m2) - (2 + m1) - (2 + m2))) :=
      mul_pos (mul_pos hb0 (by linarith)) hG
    linarith
  have hnum : sample_size_numerator ppf b m1 alpha power * sample_size_denominator b m2 <
      sample_size_numerator ppf b m2 alpha power * sample_size_denominator b m1 := by
    have hexp : sample_size_numerator ppf b m2 alpha power * sample_size_denominator b m1 -
        sample_size_numerator ppf b m1 alpha power * sample_size_denominator b m2 =
        (ppf (1 - alpha / 2) + ppf power) ^ 2 * 2 * b ^ 2 *
          (((b + b * (1 + m2)) / 2) * (1 - (b + b * (1 + m2)) / 2) * m1 ^ 2 -
            ((b + b * (1 + m1)) / 2) * (1 - (b + b * (1 + m1)) / 2) * m2 ^ 2) := by
      unfold sample_size_numerator sample_size_denominator
      ring
    have hb2 : 0 < b ^ 2 := pow_pos hb0 2
    have hX2 : 0 < (ppf (1 - alpha / 2) + ppf power) ^ 2 * 2 * b ^ 2 *
        (((b + b * (1 + m2)) / 2) * (1 - (b + b * (1 + m2)) / 2) * m1 ^ 2 -
          ((b + b * (1 + m1)) / 2) * (1 - (b + b * (1 + m1)) / 2) * m2 ^ 2) :=
      mul_pos (mul_pos (mul_pos hK2 (by norm_num)) hb2) hT
    linarith
  have hratio : sample_size_ratio ppf b m1 alpha power <
      sample_size_ratio ppf b m2 alpha power := by
    unfold sample_size_ratio
    rw [div_lt_div_iff hd1pos hd2pos]
    exact hnum
  refine ⟨?_, hratio⟩
  rw [calculate_sample_size, if_neg (ne_of_gt hd1pos)] at h1
  rw [calculate_sample_size, if_neg (ne_of_gt hd2pos)] at h2
  injection h1 with h1'
  injection h2 with h2'
  rw [← h1', ← h2']
  exact Int.ceil_le_ceil (le_of_lt hratio)

/-- Concrete weak-monotonicity instance: at baseline 0.1, mde 0.2 needs
3844 per arm while the smaller mde 0.1 needs 14757, and the exact ratio
strictly increases. -/
theorem C9_monotone_sample_size_witness :
    (3844 : ℤ) ≤ 14757 ∧
    sample_size_ratio ppf_approx (1 / 10) (1 / 5) (1 / 20) (4 / 5) <
      sample_size_ratio ppf_approx (1 / 10) (1 / 10) (1 / 20) (4 / 5) :=
  C9_monotone_sample_size ppf_approx (1 / 10) (1 / 5) (1 / 10) (1 / 20) (4 / 5)
    (by norm_num) (by norm_num) (by norm_num) (by norm_num) (by norm_num)
    (by norm_num [ppf_approx]) 3844 14757
    (by rw [calculate_sample_size, if_neg (by norm_num [sample_size_denominator])]
        congr 1
        rw [Int.ceil_eq_iff]
        constructor <;>
          norm_num [sample_size_ratio, sample_size_numerator, sample_size_denominator,
            ppf_approx])
    (by rw [calculate_sample_size, if_neg (by norm_num [sample_size_denominator])]
        congr 1
        rw [Int.ceil_eq_iff]
        constructor <;>
          norm_num [sample_size_ratio, sample_size_numerator, sample_size_denominator,
            ppf_approx])

lemma analyze_core_decision (cdf sq : ℚ → ℚ) (z975 : ℚ) (ca ta cb tb : ℕ) :
    ((analyze_core cdf sq z975 ca ta cb tb).vSignificant = true ↔
      (analyze_core cdf sq z975 ca ta cb tb).isVerdict = true ∧
        (analyze_core cdf sq z975 ca ta cb tb).vPValue < 1 / 20) ∧
    ((analyze_core cdf sq z975 ca ta cb tb).isVerdict = true →
      (analyze_core cdf sq z975 ca ta cb tb).vWinner =
        (if (analyze_core cdf sq z975 ca ta cb tb).vSignificant = true then
          (if (analyze_core cdf sq z975 ca ta cb tb).vRateA <
              (analyze_core cdf sq z975 ca ta cb tb).vRateB then ("B") else ("A"))
         else ("tie"))) := by
  by_cases hg : ta < 100 ∨ tb < 100
  · unfold analyze_core
    rw [if_pos hg]
    simp [AnalyzeResult.vSignificant, AnalyzeResult.isVerdict, AnalyzeResult.vPValue]
  · unfold analyze_core
    rw [if_neg hg]
    simp only [AnalyzeResult.vSignificant, AnalyzeResult.isVerdict, AnalyzeResult.vPValue,
      AnalyzeResult.vWinner, AnalyzeResult.vRateA, AnalyzeResult.vRateB]
    constructor
    · simp [decide_eq_true_iff]
    · intro _
      trivial

lemma analyze_test_decision (cdf sq : ℚ → ℚ) (z975 : ℚ) (a b : Counts) (metric : String) :
    ((analyze_test cdf sq z975 a b metric).vSignificant = true ↔
      (analyze_test cdf sq z975 a b metric).isVerdict = true ∧
        (analyze_test cdf sq z975 a b metric).vPValue < 1 / 20) ∧
    ((analyze_test cdf sq z975 a b metric).isVerdict = true →
      (analyze_test cdf sq z975 a b metric).vWinner =
        (if (analyze_test cdf sq z975 a b metric).vSignificant = true then
          (if (analyze_test cdf sq z975 a b metric).vRateA <
              (analyze_test cdf sq z975 a b metric).vRateB then ("B") else ("A"))
         else ("tie"))) := by
  cases hm : metric_values a b metric with
  | none =>
      simp only [analyze_test, hm]
      constructor
      · simp [AnalyzeResult.vSignificant, AnalyzeResult.isVerdict]
      · intro h
        simp [AnalyzeResult.isVerdict] at h
  | some quad =>
      obtain ⟨ca, ta, cb, tb⟩ := quad
      simp only [analyze_test, hm]
      exact analyze_core_decision cdf sq z975 ca ta cb tb

lemma analyze_core_fields (cdf sq : ℚ → ℚ) (z975 : ℚ) (ca ta cb tb : ℕ)
    (hga : 100 ≤ ta) (hgb : 100 ≤ tb)
    (hse : sq (variance_expr ca ta cb tb) ≠ 0) :
    (analyze_core cdf sq z975 ca ta cb tb).isVerdict = true ∧
    (analyze_core cdf sq z975 ca ta cb tb).vRateA = rate_of ca ta ∧
    (analyze_core cdf sq z975 ca ta cb tb).vRateB = rate_of cb tb ∧
    (analyze_core cdf sq z975 ca ta cb tb).vZScore =
      (rate_of cb tb - rate_of ca ta) / sq (variance_expr ca ta cb tb) ∧
    (analyze_core cdf sq z975 ca ta cb tb).vPValue =
      2 * (1 - cdf |(rate_of cb tb - rate_of ca ta) / sq (variance_expr ca ta cb tb)|) := by
  have hg : ¬(ta < 100 ∨ tb < 100) := by omega
  unfold analyze_core
  rw [if_neg hg]
  simp only [AnalyzeResult.isVerdict, AnalyzeResult.vRateA, AnalyzeResult.vRateB,
    AnalyzeResult.vZScore, AnalyzeResult.vPValue, if_neg hse]
  exact ⟨trivial, trivial, trivial, trivial, trivial⟩

/-- C2: significance in `analyze_test` is decided by the strict inequality
`p_value < 0.05` (a p-value of exactly 0.05 is not significant); when
significant the winner is the variant with the larger rate, otherwise
`tie`.  At the worked example (100 clicks / 10 conversions against 100
clicks / 20 conversions on `cvr`): `rate_a = 0.10`, `rate_b = 0.20`,
`pooled = 0.15`, the standard error lies in (0.0504, 0.0506), the z-score
in (1.97, 1.99), the p-value in (0.047, 0.048), and the verdict is
significant with winner "B".  The hypotheses are true facts about
`math.sqrt` and the standard normal CDF at the relevant points:
`sqrt(51/20000) = 0.05049752...`, `Phi(x) ≥ 0.9761` for `x ≥ 1.97981` and
`Phi(x) ≤ 0.9762` for `x ≤ 1.98059`. -/
theorem C2_significance_rule (cdf sq : ℚ → ℚ) (z975 : ℚ) (a b : Counts) (metric : String)
    (hs1 : 5049 / 100000 < sq (51 / 20000)) (hs2 : sq (51 / 20000) < 5051 / 100000)
    (hlo : ∀ x : ℚ, 10000 / 5051 ≤ x → 9761 / 10000 ≤ cdf x)
    (hhi : ∀ x : ℚ, x ≤ 10000 / 5049 → cdf x ≤ 9762 / 10000) :
    ((analyze_test cdf sq z975 a b metric).vSignificant = true ↔
      (analyze_test cdf sq z975 a b metric).isVerdict = true ∧
        (analyze_test cdf sq z975 a b metric).vPValue < 1 / 20) ∧
    ((analyze_test cdf sq z975 a b metric).isVerdict = true →
      (analyze_test cdf sq z975 a b metric).vWinner =
        (if (analyze_test cdf sq z975 a b metric).vSignificant = true then
          (if (analyze_test cdf sq z975 a b metric).vRateA <
              (analyze_test cdf sq z975 a b metric).vRateB then ("B") else ("A"))
         else ("tie"))) ∧
    pooled_rate 10 100 20 100 = 15 / 100 ∧
    variance_expr 10 100 20 100 = 51 / 20000 ∧
    (analyze_test cdf sq z975 ⟨0, 100, 10, 0⟩ ⟨0, 100, 20, 0⟩ ("cvr")).isVerdict = true ∧
    (analyze_test cdf sq z975 ⟨0, 100, 10, 0⟩ ⟨0, 100, 20, 0⟩ ("cvr")).vRateA = 10 / 100 ∧
    (analyze_test cdf sq z975 ⟨0, 100, 10, 0⟩ ⟨0, 100, 20, 0⟩ ("cvr")).vRateB = 20 / 100 ∧
    504 / 10000 < sq (51 / 20000) ∧ sq (51 / 20000) < 506 / 10000 ∧
    197 / 100 < (analyze_test cdf sq z975 ⟨0, 100, 10, 0⟩ ⟨0, 100, 20, 0⟩ ("cvr")).vZScore ∧
    (analyze_test cdf sq z975 ⟨0, 100, 10, 0⟩ ⟨0, 100, 20, 0⟩ ("cvr")).vZScore < 199 / 100 ∧
    47 / 1000 < (analyze_test cdf sq z975 ⟨0, 100, 10, 0⟩ ⟨0, 100, 20, 0⟩ ("cvr")).vPValue ∧
    (analyze_test cdf sq z975 ⟨0, 100, 10, 0⟩ ⟨0, 100, 20, 0⟩ ("cvr")).vPValue < 48 / 1000 ∧
    (analyze_test cdf sq z975 ⟨0, 100, 10, 0⟩ ⟨0, 100, 20, 0⟩ ("cvr")).vSignificant = true ∧
    (analyze_test cdf sq z975 ⟨0, 100, 10, 0⟩ ⟨0, 100, 20, 0⟩ ("cvr")).vWinner = ("B") := by
  have hdec := analyze_test_decision cdf sq z975 a b metric
  have hpool : pooled_rate 10 100 20 100 = 15 / 100 := by
    norm_num [pooled_rate]
  have hV : variance_expr 10 100 20 100 = 51 / 20000 := by
    norm_num [variance_expr, pooled_rate]
  have hmv : metric_values ⟨0, 100, 10, 0⟩ ⟨0, 100, 20, 0⟩ ("cvr") =
      some (10, 100, 20, 100) := rfl
  have hspos : (0 : ℚ) < sq (51 / 20000) := lt_trans (by norm_num) hs1
  have hse0 : sq (variance_expr 10 100 20 100) ≠ 0 := by
    rw [hV]
    exact ne_of_gt hspos
  have heq : analyze_test cdf sq z975 ⟨0, 100, 10, 0⟩ ⟨0, 100, 20, 0⟩ ("cvr") =
      analyze_core cdf sq z975 10 100 20 100 := by
    simp only [analyze_test, hmv]
  obtain ⟨hisv, hra, hrb, hz, hp⟩ :=
    analyze_core_fields cdf sq z975 10 100 20 100 (by norm_num) (by norm_num) hse0
  have hraval : rate_of 10 100 = (10 : ℚ) / 100 := by norm_num [rate_of]
  have hrbval : rate_of 20 100 = (20 : ℚ) / 100 := by norm_num [rate_of]
  have hdiff : rate_of 20 100 - rate_of 10 100 = (1 : ℚ) / 10 := by
    rw [hraval, hrbval]
    norm_num
  have hzval : (analyze_core cdf sq z975 10 100 20 100).vZScore =
      (1 / 10) / sq (51 / 20000) := by
    rw [hz, hV, hdiff]
  have hzlo : (10000 / 5051 : ℚ) < (1 / 10) / sq (51 / 20000) := by
    rw [lt_div_iff hspos]
    calc (10000 / 5051 : ℚ) * sq (51 / 20000) < 10000 / 5051 * (5051 / 100000) :=
          (mul_lt_mul_left (by norm_num)).mpr hs2
      _ = 1 / 10 := by norm_num
  have hzhi : (1 / 10 : ℚ) / sq (51 / 20000) < 10000 / 5049 := by
    rw [div_lt_iff hspos]
    calc (1 / 10 : ℚ) = 10000 / 5049 * (5049 / 100000) := by norm_num
      _ < 10000 / 5049 * sq (51 / 20000) := (mul_lt_mul_left (by norm_num)).mpr hs1
  have hzpos : (0 : ℚ) < (1 / 10) / sq (51 / 20000) := lt_trans (by norm_num) hzlo
  have habs : |(1 / 10 : ℚ) / sq (51 / 20000)| = (1 / 10) / sq (51 / 20000) :=
    abs_of_pos hzpos
  have hcdflo : (9761 / 10000 : ℚ) ≤ cdf ((1 / 10) / sq (51 / 20000)) :=
    hlo _ (le_of_lt hzlo)
  have hcdfhi : cdf ((1 / 10) / sq (51 / 20000)) ≤ 9762 / 10000 :=
    hhi _ (le_of_lt hzhi)
  have hpval : (analyze_core cdf sq z975 10 100 20 100).vPValue =
      2 * (1 - cdf ((1 / 10) / sq (51 / 20000))) := by
    rw [hp, hV, hdiff, habs]
  have hplo : (47 / 1000 : ℚ) <
      (analyze_core cdf sq z975 10 100 20 100).vPValue := by
    rw [hpval]
    linarith
  have hphi : (analyze_core cdf sq z975 10 100 20 100).vPValue < 48 / 1000 := by
    rw [hpval]
    linarith
  have hdecc := analyze_core_decision cdf sq z975 10 100 20 100
  have hsig : (analyze_core cdf sq z975 10 100 20 100).vSignificant = true := by
    rw [hdecc.1]
    exact ⟨hisv, by linarith⟩
  have hwin : (analyze_core cdf sq z975 10 100 20 100).vWinner = ("B") := by
    rw [hdecc.2 hisv, if_pos hsig, hra, hrb, hraval, hrbval, if_pos (by norm_num)]
  rw [heq] at *
  refine ⟨hdec.1, hdec.2, hpool, hV, hisv, ?_, ?_, by linarith, by linarith, ?_, ?_, hplo,
    hphi, hsig, hwin⟩
  · rw [hra, hraval]
  · rw [hrb, hrbval]
  · rw [hzval]
    have : (197 / 100 : ℚ) < 10000 / 5051 := by norm_num
    linarith
  · rw [hzval]
    have : (10000 / 5049 : ℚ) < 199 / 100 := by norm_num
    linarith

/-- Worked C2 instance with rational stand-ins for the square root
(0.0505) and the normal CDF (0.9762 near z ≈ 1.98): the verdict on the
10/100-vs-20/100 example is significant with winner "B". -/
theorem C2_significance_rule_witness :
    (analyze_test (fun _ => (4881 : ℚ) / 5000) (fun _ => (101 : ℚ) / 2000) 0
        ⟨0, 100, 10, 0⟩ ⟨0, 100, 20, 0⟩ ("cvr")).vSignificant = true ∧
    (analyze_test (fun _ => (4881 : ℚ) / 5000) (fun _ => (101 : ℚ) / 2000) 0
        ⟨0, 100, 10, 0⟩ ⟨0, 100, 20, 0⟩ ("cvr")).vWinner = ("B") := by
  obtain ⟨-, -, -, -, -, -, -, -, -, -, -, -, -, hsig, hwin⟩ :=
    C2_significance_rule (fun _ => (4881 : ℚ) / 5000) (fun _ => (101 : ℚ) / 2000) 0
      ⟨0, 100, 10, 0⟩ ⟨0, 100, 20, 0⟩ ("cvr") (by norm_num) (by norm_num)
      (fun x _ => by norm_num) (fun x _ => by norm_num)
  exact ⟨hsig, hwin⟩
